import Mathlib

/-!
Verification of the CloudCAS remote certificate-authority adapter
(`cas/cloudcas` in the repository, together with the `pki` bootstrap glue).

The Go source is shallowly embedded as follows:

* Go `string` values are Lean `String`; Go runes are `Char`.
* `x509.Certificate` is abstracted to the fields the adapter reads or
  writes: a subject common name, the parsed extension list and the
  template `ExtraExtensions` list.
* PEM-encoded certificate material handed back by the remote service is
  modelled by `PemString`: the external decoder (`pem.Decode` +
  `x509.ParseCertificate`, both outside this repository) either yields a
  certificate or fails, which is all `parseCertificate` observes.
* The remote gRPC client (`CertificateAuthorityClient`, an interface in
  the source) is a record of Lean functions; long-running operations are
  collapsed to the outcome of their `Wait`, nested as an inner `Except`.
* Every adapter operation returns its result paired with the list of
  remote calls it issued, so that "no network call is attempted" is the
  statement that this trace is empty.
* Go errors are strings; `errors.Wrap(err, msg)` is `goWrap msg err`.
  A Go runtime panic (out-of-range slice) is the `GoResult.panic`
  constructor, and Go slicing `xs[:hi]` is `goSliceTo`, which yields
  `none` exactly when Go would panic.
* Randomly generated identifiers (`createCertificateID`) are passed in
  as explicit `freshID` arguments.

Definitions marked `Modelled from the spec:` embed repository code that
is not part of src/ (the `cas/apiv1` extension codec and the
`cloudcas/certificate.go` key negotiation), following the words of the
specification.
-/

/-- Result of a Go computation: a value, an error, or a runtime panic. -/
inductive GoResult (α : Type) where
  | ok (val : α)
  | err (msg : String)
  | panic (msg : String)
deriving DecidableEq

/-- True exactly on the error constructor. -/
def GoResult.isErr {α : Type} : GoResult α → Bool
  | .err _ => true
  | _ => false

/-- Formatting of github.com/pkg/errors Wrap: message, colon, cause. -/
def goWrap (msg cause : String) : String := msg ++ ": " ++ cause

/-- Go slicing xs[:hi] with an Int bound: defined when 0 ≤ hi ≤ len,
and `none` (a runtime panic in Go) otherwise. -/
def goSliceTo {α : Type} (xs : List α) (hi : Int) : Option (List α) :=
  if 0 ≤ hi ∧ hi ≤ (xs.length : Int) then some (xs.take hi.toNat) else none

/-- Message of the Go runtime panic raised by an out-of-range slice. -/
def errSliceOutOfRange : String := "runtime error: slice bounds out of range"

/-- An X.509 extension: object identifier and DER value bytes. -/
structure Extension where
  oid : List Nat
  value : List Nat
deriving DecidableEq

/-- Abstraction of x509.Certificate keeping the fields the adapter
touches: the subject common name, the parsed extension list of an issued
certificate, and the ExtraExtensions list of a template. -/
structure Cert where
  subjectCommonName : String
  extensions : List Extension
  extraExtensions : List Extension
deriving DecidableEq

/-- A PEM string as seen through the external decoder: it either decodes
to a certificate or it does not. -/
inductive PemString where
  | valid (cert : Cert)
  | invalid
deriving DecidableEq

/-- Modelled from the spec: the well-known object identifier of the
certificate-authority correlation extension (declared in cas/apiv1,
which is not under src/). -/
def oidCertificateAuthority : List Nat := [1, 3, 6, 1, 4, 1, 37476, 9000, 64, 1]

/-- Modelled from the spec: the small-integer backend tag identifying the
CloudCAS backend inside the correlation extension. -/
def cloudCASTag : Nat := 2

/-- Modelled from the spec: encode(backendID, certificateID) of the
Extension Codec (cas/apiv1, not under src/) — a deterministic
tag-length-value aggregate of an integer and a string. -/
def encodeCertificateAuthorityExtension (backendID : Nat) (certificateID : String) : List Nat :=
  backendID :: certificateID.length :: certificateID.data.map Char.toNat

/-- Modelled from the spec: decode of the Extension Codec (cas/apiv1,
not under src/); fails on malformed input. -/
def decodeCertificateAuthorityExtension (value : List Nat) : Option (Nat × String) :=
  match value with
  | backendID :: n :: rest =>
    if rest.length = n then some (backendID, String.mk (rest.map Char.ofNat)) else none
  | _ => none

/-- Modelled from the spec: apiv1.CreateCertificateAuthorityExtension
(not under src/) builds the correlation extension carrying the backend
tag and the certificate identifier under the well-known OID. -/
def createCertificateAuthorityExtension (backendID : Nat) (certificateID : String) : Extension :=
  { oid := oidCertificateAuthority
    value := encodeCertificateAuthorityExtension backendID certificateID }

/-- Modelled from the spec: apiv1.FindCertificateAuthorityExtension (not
under src/) scans the extension list of an issued certificate for the
well-known OID. -/
def findCertificateAuthorityExtension (cert : Cert) : Option Extension :=
  cert.extensions.find? (fun e => e.oid == oidCertificateAuthority)

/-- Modelled from the spec: apiv1.RemoveCertificateAuthorityExtension
(not under src/) — the idempotent remove-if-present step deleting any
correlation extension from the ExtraExtensions list of a template. -/
def removeCertificateAuthorityExtension (cert : Cert) : Cert :=
  { cert with extraExtensions :=
      cert.extraExtensions.filter (fun e => !(e.oid == oidCertificateAuthority)) }

/-- Number of correlation extensions on the ExtraExtensions list of a
template. -/
def casExtCount (cert : Cert) : Nat :=
  (cert.extraExtensions.filter (fun e => e.oid == oidCertificateAuthority)).length

/-- parseCertificate of cloudcas.go: pem.Decode plus
x509.ParseCertificate, failing on a string that is not a valid PEM
encoded certificate. -/
def parseCertificate (pemCert : PemString) : GoResult Cert :=
  match pemCert with
  | .valid cert => .ok cert
  | .invalid => .err "error decoding certificate: not a valid PEM encoded block"

/-- Parse every element of a PEM list in order, stopping at the first
failure (the loop bodies of getCertificateAndChain and
CreateCertificateAuthority). -/
def parseChain (pems : List PemString) : GoResult (List Cert) :=
  match pems with
  | [] => .ok []
  | p :: rest =>
    match parseCertificate p with
    | .err e => .err e
    | .panic e => .panic e
    | .ok cert =>
      match parseChain rest with
      | .err e => .err e
      | .panic e => .panic e
      | .ok certs => .ok (cert :: certs)

/-- Wire certificate returned by the remote CreateCertificate and
RevokeCertificate calls: a PEM leaf plus a PEM chain. -/
structure PbCertificate where
  pemCertificate : PemString
  pemCertificateChain : List PemString
deriving DecidableEq

/-- getCertificateAndChain of cloudcas.go: parse the leaf, drop the last
element of the chain (the certificate of the issuing authority itself)
by slicing to len-1, and parse the rest. With an empty chain the slice
bound is -1 and Go panics. -/
def getCertificateAndChain (certpb : PbCertificate) : GoResult (Cert × List Cert) :=
  match parseCertificate certpb.pemCertificate with
  | .err e => .err e
  | .panic e => .panic e
  | .ok cert =>
    match goSliceTo certpb.pemCertificateChain ((certpb.pemCertificateChain.length : Int) - 1) with
    | none => .panic errSliceOutOfRange
    | some pemChain =>
      match parseChain pemChain with
      | .err e => .err e
      | .panic e => .panic e
      | .ok chain => .ok (cert, chain)

/-- Google CAS revocation reasons (the pb.RevocationReason values named
in cloudcas.go). -/
inductive RevocationReason where
  | revocationReasonUnspecified
  | keyCompromise
  | certificateAuthorityCompromise
  | affiliationChanged
  | superseded
  | cessationOfOperation
  | certificateHold
  | privilegeWithdrawn
  | attributeAuthorityCompromise
deriving DecidableEq

/-- revocationCodeMap of cloudcas.go: RFC 5280 reason codes to Google
CAS reasons. Codes 7 and 8 have no entry, nor does anything outside
0..10. -/
def revocationCodeMap (code : Int) : Option RevocationReason :=
  if code = 0 then some .revocationReasonUnspecified
  else if code = 1 then some .keyCompromise
  else if code = 2 then some .certificateAuthorityCompromise
  else if code = 3 then some .affiliationChanged
  else if code = 4 then some .superseded
  else if code = 5 then some .cessationOfOperation
  else if code = 6 then some .certificateHold
  else if code = 9 then some .privilegeWithdrawn
  else if code = 10 then some .attributeAuthorityCompromise
  else none

/-- Payload of the remote CreateCertificate call: either a rendered
template (createCertificateConfig) or a raw PEM CSR. -/
inductive PbCertificateConfig where
  | config (template : Cert)
  | pemCsr (csr : String)
deriving DecidableEq

/-- Modelled from the spec: createCertificateConfig of
cloudcas/certificate.go (not under src/) renders a template into the
wire certificate config; the rendering engine is out of scope, so it is
an opaque always-successful translation carrying the template. -/
def createCertificateConfig (tpl : Cert) : PbCertificateConfig :=
  PbCertificateConfig.config tpl

/-- Wire request of the remote CreateCertificate call. -/
structure PbCreateCertificateRequest where
  parent : String
  certificateId : String
  certConfig : PbCertificateConfig
  lifetime : Int
  requestId : String
deriving DecidableEq

/-- Wire request of the remote RevokeCertificate call. -/
structure PbRevokeCertificateRequest where
  name : String
  reason : RevocationReason
  requestId : String
deriving DecidableEq

/-- Wire request of the remote GetCertificateAuthority call. -/
structure PbGetCertificateAuthorityRequest where
  name : String
deriving DecidableEq

/-- Wire certificate authority returned by the remote service. -/
structure PbCertificateAuthority where
  name : String
  pemCaCertificates : List PemString
deriving DecidableEq

/-- Key version specification sent along a CreateCertificateAuthority
request. -/
structure KeySpec where
  signatureAlgorithm : Int
  bits : Int
deriving DecidableEq

/-- Wire request of the remote CreateCertificateAuthority call. The
rendered certificate config again carries the template. -/
structure PbCreateCertificateAuthorityRequest where
  parent : String
  certificateAuthorityId : String
  requestId : String
  caType : Int
  template : Cert
  lifetime : Int
  keySpec : KeySpec
deriving DecidableEq

/-- Wire request of the remote FetchCertificateAuthorityCsr call. -/
structure PbFetchCsrRequest where
  name : String
deriving DecidableEq

/-- Wire response of the remote FetchCertificateAuthorityCsr call. -/
structure PbFetchCsrResponse where
  pemCsr : String
deriving DecidableEq

/-- Wire request of the remote ActivateCertificateAuthority call. -/
structure PbActivateRequest where
  name : String
  pemCaCertificate : PemString
  pemIssuerChain : List PemString
  requestId : String
deriving DecidableEq

/-- Wire constant pb.CertificateAuthority_SELF_SIGNED. -/
def pbTypeSelfSigned : Int := 1

/-- Wire constant pb.CertificateAuthority_SUBORDINATE. -/
def pbTypeSubordinate : Int := 2

/-- Constant apiv1.RootCA. -/
def rootCA : Int := 1

/-- Constant apiv1.IntermediateCA. -/
def intermediateCA : Int := 2

/-- Wire type selected by the final switch of
CreateCertificateAuthority; `none` is the default branch that rejects an
unsupported type. -/
def pbTypeFor (t : Int) : Option Int :=
  if t = rootCA then some pbTypeSelfSigned
  else if t = intermediateCA then some pbTypeSubordinate
  else none

/-- One remote call issued through the CertificateAuthorityClient
interface, with the request it carried. -/
inductive RemoteCall where
  | createCertificate (req : PbCreateCertificateRequest)
  | revokeCertificate (req : PbRevokeCertificateRequest)
  | getCertificateAuthority (req : PbGetCertificateAuthorityRequest)
  | createCertificateAuthority (req : PbCreateCertificateAuthorityRequest)
  | fetchCertificateAuthorityCsr (req : PbFetchCsrRequest)
  | activateCertificateAuthority (req : PbActivateRequest)
deriving DecidableEq

/-- Template carried by a remote call, when it carries one: the rendered
config of a CreateCertificate call, or the certificate authority
template of a CreateCertificateAuthority call. -/
def RemoteCall.templateOf : RemoteCall → Option Cert
  | .createCertificate r =>
    match r.certConfig with
    | .config t => some t
    | .pemCsr _ => none
  | .createCertificateAuthority r => some r.template
  | _ => none

/-- Templates carried by the remote calls of a trace. -/
def callTemplates (trace : List RemoteCall) : List Cert :=
  trace.filterMap RemoteCall.templateOf

/-- The CertificateAuthorityClient interface of cloudcas.go as a record
of functions. The two calls that return a long-running operation are
collapsed to the outcome of waiting on it: the outer Except is the
initiating call, the inner one the Wait. -/
structure Client where
  createCertificate : PbCreateCertificateRequest → Except String PbCertificate
  revokeCertificate : PbRevokeCertificateRequest → Except String PbCertificate
  getCertificateAuthority : PbGetCertificateAuthorityRequest → Except String PbCertificateAuthority
  createCertificateAuthority :
    PbCreateCertificateAuthorityRequest → Except String (Except String PbCertificateAuthority)
  fetchCertificateAuthorityCsr : PbFetchCsrRequest → Except String PbFetchCsrResponse
  activateCertificateAuthority :
    PbActivateRequest → Except String (Except String PbCertificateAuthority)

/-- The CloudCAS adapter state: immutable resource identifiers fixed at
construction (the client handle is passed alongside). -/
structure CloudCAS where
  certificateAuthority : String
  project : String
  location : String
deriving DecidableEq

/-- Request shape apiv1.CreateCertificateRequest. -/
structure CreateCertificateRequest where
  template : Option Cert
  lifetime : Int
  requestID : String

/-- Response shape apiv1.CreateCertificateResponse. -/
structure CreateCertificateResponse where
  certificate : Cert
  certificateChain : List Cert
deriving DecidableEq

/-- Request shape apiv1.RenewCertificateRequest. -/
structure RenewCertificateRequest where
  template : Option Cert
  lifetime : Int
  requestID : String

/-- Response shape apiv1.RenewCertificateResponse. -/
structure RenewCertificateResponse where
  certificate : Cert
  certificateChain : List Cert
deriving DecidableEq

/-- Request shape apiv1.RevokeCertificateRequest. -/
structure RevokeCertificateRequest where
  certificate : Option Cert
  reasonCode : Int
  requestID : String

/-- Response shape apiv1.RevokeCertificateResponse. -/
structure RevokeCertificateResponse where
  certificate : Cert
  certificateChain : List Cert
deriving DecidableEq

/-- Request shape apiv1.GetCertificateAuthorityRequest. -/
structure GetCertificateAuthorityRequest where
  name : String

/-- Response shape apiv1.GetCertificateAuthorityResponse. -/
structure GetCertificateAuthorityResponse where
  rootCertificate : Cert
deriving DecidableEq

/-- Reference to the parent authority of an intermediate
(apiv1 carries it as the name field of a previous create response). -/
structure ParentRef where
  name : String
deriving DecidableEq

/-- Shape apiv1.CreateKey: requested signature algorithm and key size. -/
structure CreateKey where
  signatureAlgorithm : Int
  bits : Int

/-- Request shape apiv1.CreateCertificateAuthorityRequest. -/
structure CreateCertificateAuthorityRequest where
  caType : Int
  template : Option Cert
  lifetime : Int
  parent : Option ParentRef
  createKey : Option CreateKey
  name : String
  requestID : String

/-- Response shape apiv1.CreateCertificateAuthorityResponse. -/
structure CreateCertificateAuthorityResponse where
  name : String
  certificate : Cert
  certificateChain : List Cert
deriving DecidableEq

/-- Name of the parent authority, empty when absent (the source only
dereferences it after checking for nil). -/
def parentName (p : Option ParentRef) : String :=
  match p with
  | none => ""
  | some r => r.name

/-- Strip-and-retag step of CloudCAS.createCertificate: remove any
existing correlation extension from the template and append a fresh one
carrying the given certificate identifier. -/
def tagTemplate (tpl : Cert) (certificateID : String) : Cert :=
  let stripped := removeCertificateAuthorityExtension tpl
  { stripped with extraExtensions :=
      stripped.extraExtensions ++ [createCertificateAuthorityExtension cloudCASTag certificateID] }

/-- Wire request built by CloudCAS.createCertificate before it calls the
remote CreateCertificate endpoint. -/
def buildCreateCertReq (c : CloudCAS) (freshID : String) (tpl : Cert)
    (lifetime : Int) (requestID : String) : PbCreateCertificateRequest :=
  { parent := c.certificateAuthority
    certificateId := freshID
    certConfig := createCertificateConfig (tagTemplate tpl freshID)
    lifetime := lifetime
    requestId := requestID }

/-- CloudCAS.createCertificate (the private helper shared by the create
and renew entry points): retag the template, submit the signing request,
and decode the returned leaf and chain. -/
def CloudCAS.createCertificate (c : CloudCAS) (client : Client) (freshID : String)
    (tpl : Cert) (lifetime : Int) (requestID : String) :
    GoResult (Cert × List Cert) × List RemoteCall :=
  let pbReq := buildCreateCertReq c freshID tpl lifetime requestID
  match client.createCertificate pbReq with
  | .error e =>
    (.err (goWrap "cloudCAS CreateCertificate failed" e), [RemoteCall.createCertificate pbReq])
  | .ok certpb =>
    (getCertificateAndChain certpb, [RemoteCall.createCertificate pbReq])

/-- CloudCAS.CreateCertificate: validate the request, then delegate to
the private createCertificate helper. -/
def CloudCAS.CreateCertificate (c : CloudCAS) (client : Client) (freshID : String)
    (req : CreateCertificateRequest) :
    GoResult CreateCertificateResponse × List RemoteCall :=
  match req.template with
  | none => (.err "createCertificateRequest template cannot be nil", [])
  | some tpl =>
    if req.lifetime = 0 then (.err "createCertificateRequest lifetime cannot be 0", [])
    else
      match c.createCertificate client freshID tpl req.lifetime req.requestID with
      | (.ok res, tr) => (.ok { certificate := res.1, certificateChain := res.2 }, tr)
      | (.err e, tr) => (.err e, tr)
      | (.panic e, tr) => (.panic e, tr)

/-- CloudCAS.RenewCertificate: Google CAS has no renew primitive, so the
body repeats CreateCertificate on the same private helper. -/
def CloudCAS.RenewCertificate (c : CloudCAS) (client : Client) (freshID : String)
    (req : RenewCertificateRequest) :
    GoResult RenewCertificateResponse × List RemoteCall :=
  match req.template with
  | none => (.err "renewCertificateRequest template cannot be nil", [])
  | some tpl =>
    if req.lifetime = 0 then (.err "renewCertificateRequest lifetime cannot be 0", [])
    else
      match c.createCertificate client freshID tpl req.lifetime req.requestID with
      | (.ok res, tr) => (.ok { certificate := res.1, certificateChain := res.2 }, tr)
      | (.err e, tr) => (.err e, tr)
      | (.panic e, tr) => (.panic e, tr)

/-- Error produced by an invalid or unsupported revocation reason code. -/
def errInvalidReason (code : Int) : String :=
  "revokeCertificate reasonCode=" ++ toString code ++ " is invalid or not supported"

/-- Error produced when the certificate presented for revocation carries
no correlation extension. -/
def errRevokeExtNotFound : String :=
  "error revoking certificate: certificate authority extension was not found"

/-- Error produced when the correlation extension value does not decode. -/
def errRevokeUnmarshal : String :=
  "error unmarshaling certificate authority extension"

/-- CloudCAS.RevokeCertificate: map the reason code, require a
certificate, recover the correlation identifier from its extension, and
revoke by authority-scoped certificate name. -/
def CloudCAS.RevokeCertificate (c : CloudCAS) (client : Client)
    (req : RevokeCertificateRequest) :
    GoResult RevokeCertificateResponse × List RemoteCall :=
  match revocationCodeMap req.reasonCode with
  | none => (.err (errInvalidReason req.reasonCode), [])
  | some reason =>
    match req.certificate with
    | none => (.err "revokeCertificateRequest certificate cannot be nil", [])
    | some cert =>
      match findCertificateAuthorityExtension cert with
      | none => (.err errRevokeExtNotFound, [])
      | some ext =>
        match decodeCertificateAuthorityExtension ext.value with
        | none => (.err errRevokeUnmarshal, [])
        | some cae =>
          let pbReq : PbRevokeCertificateRequest :=
            { name := c.certificateAuthority ++ "/certificates/" ++ cae.2
              reason := reason
              requestId := req.requestID }
          match client.revokeCertificate pbReq with
          | .error e =>
            (.err (goWrap "cloudCAS RevokeCertificate failed" e),
             [RemoteCall.revokeCertificate pbReq])
          | .ok certpb =>
            match getCertificateAndChain certpb with
            | .ok res =>
              (.ok { certificate := res.1, certificateChain := res.2 },
               [RemoteCall.revokeCertificate pbReq])
            | .err e => (.err e, [RemoteCall.revokeCertificate pbReq])
            | .panic e => (.panic e, [RemoteCall.revokeCertificate pbReq])

/-- Name resolution of GetCertificateAuthority: an empty request name
falls back to the authority the adapter was configured with. -/
def resolveCAName (c : CloudCAS) (name : String) : String :=
  if name = "" then c.certificateAuthority else name

/-- Error produced when the remote service returns an empty PEM chain
for a certificate authority. -/
def errGetCAEmpty : String :=
  "cloudCAS GetCertificateAuthority: PemCACertificate should not be empty"

/-- CloudCAS.GetCertificateAuthority: call the remote get endpoint and
parse the last element of the returned chain as the root. -/
def CloudCAS.GetCertificateAuthority (c : CloudCAS) (client : Client)
    (req : GetCertificateAuthorityRequest) :
    GoResult GetCertificateAuthorityResponse × List RemoteCall :=
  let pbReq : PbGetCertificateAuthorityRequest := { name := resolveCAName c req.name }
  match client.getCertificateAuthority pbReq with
  | .error e =>
    (.err (goWrap "cloudCAS GetCertificateAuthority failed" e),
     [RemoteCall.getCertificateAuthority pbReq])
  | .ok resp =>
    match resp.pemCaCertificates.getLast? with
    | none => (.err errGetCAEmpty, [RemoteCall.getCertificateAuthority pbReq])
    | some lastPem =>
      match parseCertificate lastPem with
      | .err e => (.err e, [RemoteCall.getCertificateAuthority pbReq])
      | .panic e => (.panic e, [RemoteCall.getCertificateAuthority pbReq])
      | .ok root =>
        (.ok { rootCertificate := root }, [RemoteCall.getCertificateAuthority pbReq])

/-- Modelled from the spec: createKeyVersionSpec of
cloudcas/certificate.go (not under src/), the Key-Spec Negotiator. An
unspecified algorithm (0) selects the provider default; an explicit
algorithm and bit size must belong to the small supported set, and the
negotiation fails otherwise. -/
def createKeyVersionSpec (alg bits : Int) : Except String KeySpec :=
  if alg = 0 then .ok { signatureAlgorithm := 0, bits := 0 }
  else if (alg = 1 ∧ (bits = 0 ∨ bits = 256)) ∨
          (alg = 2 ∧ (bits = 0 ∨ bits = 384)) ∨
          (alg = 3 ∧ (bits = 0 ∨ bits = 2048 ∨ bits = 3072 ∨ bits = 4096)) then
    .ok { signatureAlgorithm := alg, bits := bits }
  else .error "unsupported signature algorithm or key size"

/-- Character mapping of normalizeCertificateAuthorityName: the rune
switch keeping letters, digits, hyphen and underscore, and replacing
everything else with a hyphen. -/
def caNameMapChar (r : Char) : Char :=
  if 'a' ≤ r ∧ r ≤ 'z' then r
  else if 'A' ≤ r ∧ r ≤ 'Z' then r
  else if '0' ≤ r ∧ r ≤ '9' then r
  else if r = '-' then r
  else if r = '_' then r
  else '-'

/-- Go strings.Map restricted to the use the source makes of it: apply
the mapping to every rune of the string (the source mapping never drops
a rune). -/
def stringsMap (f : Char → Char) (s : String) : String :=
  String.mk (s.data.map f)

/-- normalizeCertificateAuthorityName of cloudcas.go. -/
def normalizeCertificateAuthorityName (name : String) : String :=
  stringsMap caNameMapChar name

/-- CloudCAS.signIntermediateCA: the three-step subordinate handshake —
fetch the CSR of the new authority, sign it at the parent authority, and
activate the new authority with the signed certificate and issuer
chain. -/
def CloudCAS.signIntermediateCA (_c : CloudCAS) (client : Client) (freshID : String)
    (name : String) (req : CreateCertificateAuthorityRequest) :
    GoResult PbCertificateAuthority × List RemoteCall :=
  let csrReq : PbFetchCsrRequest := { name := name }
  match client.fetchCertificateAuthorityCsr csrReq with
  | .error e =>
    (.err (goWrap "cloudCAS FetchCertificateAuthorityCsr failed" e),
     [RemoteCall.fetchCertificateAuthorityCsr csrReq])
  | .ok csr =>
    let signReq : PbCreateCertificateRequest :=
      { parent := parentName req.parent
        certificateId := freshID
        certConfig := PbCertificateConfig.pemCsr csr.pemCsr
        lifetime := req.lifetime
        requestId := req.requestID }
    match client.createCertificate signReq with
    | .error e =>
      (.err (goWrap "cloudCAS CreateCertificate failed" e),
       [RemoteCall.fetchCertificateAuthorityCsr csrReq, RemoteCall.createCertificate signReq])
    | .ok sign =>
      let actReq : PbActivateRequest :=
        { name := name
          pemCaCertificate := sign.pemCertificate
          pemIssuerChain := sign.pemCertificateChain
          requestId := req.requestID }
      let tr := [RemoteCall.fetchCertificateAuthorityCsr csrReq,
                 RemoteCall.createCertificate signReq,
                 RemoteCall.activateCertificateAuthority actReq]
      match client.activateCertificateAuthority actReq with
      | .error e => (.err (goWrap "cloudCAS ActivateCertificateAuthority1 failed" e), tr)
      | .ok (.error e) => (.err (goWrap "cloudCAS ActivateCertificateAuthority failed" e), tr)
      | .ok (.ok ca) => (.ok ca, tr)

/-- Error produced by an unsupported authority type. -/
def errCCAType (t : Int) : String :=
  "createCertificateAuthorityRequest type=" ++ toString t ++ " is invalid or not supported"

/-- CloudCAS.CreateCertificateAuthority: validate configuration and
request, negotiate the key spec, normalize or generate the authority
identifier, tag the template with a correlation extension (appended
without a strip step), submit the create call, wait, run the subordinate
handshake for intermediates, and decode the final chain. -/
def CloudCAS.CreateCertificateAuthority (c : CloudCAS) (client : Client)
    (freshID1 freshID2 : String) (req : CreateCertificateAuthorityRequest) :
    GoResult CreateCertificateAuthorityResponse × List RemoteCall :=
  if c.project = "" then (.err "cloudCAS project cannot be empty", [])
  else if c.location = "" then (.err "cloudCAS location cannot be empty", [])
  else
    match req.template with
    | none => (.err "createCertificateAuthorityRequest template cannot be nil", [])
    | some tpl =>
      if req.lifetime = 0 then (.err "createCertificateAuthorityRequest lifetime cannot be 0", [])
      else if req.caType = intermediateCA ∧ req.parent = none then
        (.err "createCertificateAuthorityRequest parent cannot be nil", [])
      else if req.caType = intermediateCA ∧ parentName req.parent = "" then
        (.err "createCertificateAuthorityRequest parent name cannot be empty", [])
      else
        match (match req.createKey with
               | none => createKeyVersionSpec 0 0
               | some k => createKeyVersionSpec k.signatureAlgorithm k.bits) with
        | .error e => (.err (goWrap "createCertificateAuthorityRequest createKey is not valid" e), [])
        | .ok keySpec =>
          let normalized := normalizeCertificateAuthorityName req.name
          let certificateAuthorityID := if normalized = "" then freshID1 else normalized
          let tagged :=
            { tpl with extraExtensions := tpl.extraExtensions ++
                [createCertificateAuthorityExtension cloudCASTag certificateAuthorityID] }
          match pbTypeFor req.caType with
          | none => (.err (errCCAType req.caType), [])
          | some pbType =>
            let pbReq : PbCreateCertificateAuthorityRequest :=
              { parent := "projects/" ++ c.project ++ "/locations/" ++ c.location
                certificateAuthorityId := certificateAuthorityID
                requestId := req.requestID
                caType := pbType
                template := tagged
                lifetime := req.lifetime
                keySpec := keySpec }
            match client.createCertificateAuthority pbReq with
            | .error e =>
              (.err (goWrap "cloudCAS CreateCertificateAuthority failed" e),
               [RemoteCall.createCertificateAuthority pbReq])
            | .ok (.error e) =>
              (.err (goWrap "cloudCAS CreateCertificateAuthority failed" e),
               [RemoteCall.createCertificateAuthority pbReq])
            | .ok (.ok ca0) =>
              let signed :=
                if req.caType = intermediateCA then
                  c.signIntermediateCA client freshID2 ca0.name req
                else (.ok ca0, [])
              let tr := RemoteCall.createCertificateAuthority pbReq :: signed.2
              match signed.1 with
              | .err e => (.err e, tr)
              | .panic e => (.panic e, tr)
              | .ok ca =>
                match ca.pemCaCertificates with
                | [] =>
                  (.err "cloudCAS CreateCertificateAuthority failed: PemCaCertificates is empty", tr)
                | leafPem :: restPems =>
                  match parseCertificate leafPem with
                  | .err e => (.err e, tr)
                  | .panic e => (.panic e, tr)
                  | .ok cert =>
                    match parseChain restPems with
                    | .err e => (.err e, tr)
                    | .panic e => (.panic e, tr)
                    | .ok chain =>
                      (.ok { name := ca.name, certificate := cert, certificateChain := chain }, tr)

/-- Split a character list at every occurrence of the separator, keeping
empty fields, as Go strings.Split does for a one-rune separator. -/
def goSplit (sep : Char) : List Char → List (List Char)
  | [] => [[]]
  | c :: rest =>
    let r := goSplit sep rest
    if c = sep then [] :: r
    else
      match r with
      | [] => [[c]]
      | h :: t => (c :: h) :: t

/-- Go strings.Split(s, sep) for a one-character separator. -/
def stringsSplitChar (sep : Char) (s : String) : List String :=
  (goSplit sep s.data).map String.mk

/-- Field conditions of caRegexp on an already split resource name: the
anchored pattern projects/[^/]+/locations/[^/]+/certificateAuthorities/[^/]+
holds exactly when the string splits into these six fields, the literal
ones fixed and the variable ones nonempty (split fields never contain
the separator). -/
def caPartsOK : List String → Bool
  | [a, b, c, d, e, f] =>
    a == "projects" && c == "locations" && e == "certificateAuthorities" &&
      !(b == "") && !(d == "") && !(f == "")
  | _ => false

/-- caRegexp.MatchString of cloudcas.go. -/
def caRegexpMatch (s : String) : Bool :=
  caPartsOK (stringsSplitChar (Char.ofNat 47) s)

/-- Options shape of apiv1 as consumed by the cloudcas constructor. -/
structure Options where
  certificateAuthority : String
  project : String
  location : String
  isCreator : Bool
  credentialsFile : String

/-- New of cloudcas.go: validate the options per the is-creator flag,
derive project and location from the resource name when omitted, create
the remote client (its failure is injected as clientErr), and build the
adapter. -/
def New (clientErr : Option String) (opts : Options) : GoResult CloudCAS :=
  if opts.isCreator then
    if opts.project = "" then .err "cloudCAS project cannot be empty"
    else if opts.location = "" then .err "cloudCAS location cannot be empty"
    else
      match clientErr with
      | some e => .err (goWrap "error creating client" e)
      | none =>
        .ok { certificateAuthority := opts.certificateAuthority
              project := opts.project
              location := opts.location }
  else
    if opts.certificateAuthority = "" then .err "cloudCAS certificateAuthority cannot be empty"
    else if !(caRegexpMatch opts.certificateAuthority) then
      .err "cloudCAS certificateAuthority is not valid certificate authority resource"
    else
      let parts := stringsSplitChar (Char.ofNat 47) opts.certificateAuthority
      let project := if parts.length = 6 ∧ opts.project = "" then parts.getD 1 "" else opts.project
      let location := if parts.length = 6 ∧ opts.location = "" then parts.getD 3 "" else opts.location
      match clientErr with
      | some e => .err (goWrap "error creating client" e)
      | none =>
        .ok { certificateAuthority := opts.certificateAuthority
              project := project
              location := location }

/-- Outcome relation between a create response and a renew response:
same constructor, same certificate and chain on success, same panic
message on a panic. -/
def sameOutcome : GoResult CreateCertificateResponse → GoResult RenewCertificateResponse → Prop
  | .ok a, .ok b => a.certificate = b.certificate ∧ a.certificateChain = b.certificateChain
  | .err _, .err _ => True
  | .panic p, .panic q => p = q
  | _, _ => False

/-- Stub client whose every endpoint fails, used to observe traces and
validation behavior on concrete inputs. -/
def stubErrClient : Client :=
  { createCertificate := fun _ => .error "unavailable"
    revokeCertificate := fun _ => .error "unavailable"
    getCertificateAuthority := fun _ => .error "unavailable"
    createCertificateAuthority := fun _ => .error "unavailable"
    fetchCertificateAuthorityCsr := fun _ => .error "unavailable"
    activateCertificateAuthority := fun _ => .error "unavailable" }

/-- A concrete adapter configured against a valid resource name. -/
def sampleCAS : CloudCAS :=
  { certificateAuthority := "projects/p1/locations/l1/certificateAuthorities/c1"
    project := "p1"
    location := "l1" }

/-- A concrete leaf certificate. -/
def leafCert : Cert := { subjectCommonName := "leaf", extensions := [], extraExtensions := [] }

/-- A concrete intermediate certificate. -/
def interCert : Cert := { subjectCommonName := "inter", extensions := [], extraExtensions := [] }

/-- A concrete authority certificate (tail of a returned chain). -/
def authCert : Cert := { subjectCommonName := "authority", extensions := [], extraExtensions := [] }

/-- A concrete root certificate. -/
def rootCert : Cert := { subjectCommonName := "root", extensions := [], extraExtensions := [] }

/-- A plain template without extensions. -/
def plainTemplate : Cert :=
  { subjectCommonName := "template", extensions := [], extraExtensions := [] }

/-- A template that already carries a correlation extension from an
earlier issuance. -/
def staleTemplate : Cert :=
  { subjectCommonName := "template"
    extensions := []
    extraExtensions := [createCertificateAuthorityExtension cloudCASTag "old-id"] }

/-- Wire certificate holding the sample leaf and the chain
[intermediate, authority certificate]. -/
def leafWithFullChain : PbCertificate :=
  { pemCertificate := PemString.valid leafCert
    pemCertificateChain := [PemString.valid interCert, PemString.valid authCert] }

/-- Wire certificate holding the sample leaf and an empty chain. -/
def leafWithEmptyChain : PbCertificate :=
  { pemCertificate := PemString.valid leafCert, pemCertificateChain := [] }

/-- Wire authority whose chain is [intermediate, root]. -/
def interRootAuthority : PbCertificateAuthority :=
  { name := "ca", pemCaCertificates := [PemString.valid interCert, PemString.valid rootCert] }

/-- Stub client answering a create-certificate call with a fixed leaf
and the chain [intermediate, authority certificate]. -/
def createStubClient : Client :=
  { stubErrClient with createCertificate := fun _ => .ok leafWithFullChain }

/-- Stub client whose get-authority call returns the chain
[intermediate, root]. -/
def getStubClient : Client :=
  { stubErrClient with getCertificateAuthority := fun _ => .ok interRootAuthority }

/-- Stub client whose create-certificate and revoke calls return a leaf
with an empty chain. -/
def emptyChainClient : Client :=
  { stubErrClient with
    createCertificate := fun _ => .ok leafWithEmptyChain
    revokeCertificate := fun _ => .ok leafWithEmptyChain }

/-- Wire authority with an empty PEM chain. -/
def emptyCAAuthority : PbCertificateAuthority := { name := "ca", pemCaCertificates := [] }

/-- Stub client whose get-authority call returns an authority with an
empty PEM chain. -/
def emptyCAClient : Client :=
  { stubErrClient with getCertificateAuthority := fun _ => .ok emptyCAAuthority }

/-- A certificate carrying a correlation extension with a well-formed
value, as issued by this backend. -/
def issuedCert : Cert :=
  { subjectCommonName := "issued"
    extensions := [createCertificateAuthorityExtension cloudCASTag "abc"]
    extraExtensions := [] }

/-- A certificate carrying a correlation extension whose value does not
decode. -/
def malformedExtCert : Cert :=
  { subjectCommonName := "issued"
    extensions := [{ oid := oidCertificateAuthority, value := [] }]
    extraExtensions := [] }

/-- Authority-creation request reusing a template that already carries a
correlation extension. -/
def staleCCARequest : CreateCertificateAuthorityRequest :=
  { caType := rootCA
    template := some staleTemplate
    lifetime := 1
    parent := none
    createKey := none
    name := "myca"
    requestID := "r1" }

/-! ## Helper lemmas -/

/-- Parsing a list of valid PEM strings recovers exactly the underlying
certificates. -/
theorem parseChain_map_valid (l : List Cert) :
    parseChain (l.map PemString.valid) = .ok l := by
  induction l with
  | nil => rfl
  | cons a t ih => simp [parseChain, parseCertificate, ih]

/-- Slicing a nonempty list to length minus one keeps everything but the
last element. -/
theorem goSliceTo_pred {α : Type} (xs : List α) (h : xs ≠ []) :
    goSliceTo xs ((xs.length : Int) - 1) = some xs.dropLast := by
  have hpos : 0 < xs.length := List.length_pos.mpr h
  unfold goSliceTo
  rw [if_pos]
  · congr 1
    have ht : ((xs.length : Int) - 1).toNat = xs.length - 1 := by omega
    rw [ht, ← List.dropLast_eq_take]
  · constructor <;> omega

/-- dropLast commutes with map. -/
theorem map_dropLast {α β : Type} (f : α → β) (l : List α) :
    (l.map f).dropLast = l.dropLast.map f := by
  rw [List.dropLast_eq_take, List.dropLast_eq_take, List.length_map, List.map_take]

/-- Decoding a wire certificate whose leaf is valid and whose chain
holds only valid elements yields the leaf and the chain without its last
element. -/
theorem getCertificateAndChain_valid (leaf : Cert) (chain : List Cert) (h : chain ≠ []) :
    getCertificateAndChain
      { pemCertificate := PemString.valid leaf
        pemCertificateChain := chain.map PemString.valid } =
      .ok (leaf, chain.dropLast) := by
  have hmap : chain.map PemString.valid ≠ [] := by simpa using h
  unfold getCertificateAndChain
  simp only [parseCertificate]
  rw [goSliceTo_pred _ hmap]
  simp only [map_dropLast, parseChain_map_valid]

/-- Decoding a wire certificate with an empty chain panics on the slice
bound. -/
theorem getCertificateAndChain_empty (leaf : Cert) :
    getCertificateAndChain
      { pemCertificate := PemString.valid leaf, pemCertificateChain := [] } =
      .panic errSliceOutOfRange := by
  unfold getCertificateAndChain
  simp [parseCertificate, goSliceTo]

/-- Filtering for a predicate after keeping only its complement leaves
nothing. -/
theorem filter_not_filter {α : Type} (p : α → Bool) (l : List α) :
    (l.filter fun a => !(p a)).filter p = [] := by
  induction l with
  | nil => rfl
  | cons a t ih =>
    by_cases h : p a = true
    · simp [List.filter_cons, h, ih]
    · simp [List.filter_cons, h, ih]

/-- The strip-and-retag step always leaves exactly one correlation
extension on the template. -/
theorem casExtCount_tagTemplate (tpl : Cert) (freshID : String) :
    casExtCount (tagTemplate tpl freshID) = 1 := by
  unfold casExtCount tagTemplate removeCertificateAuthorityExtension
    createCertificateAuthorityExtension
  simp [List.filter_append, filter_not_filter]

/-- A split matching the resource-name pattern has exactly six fields. -/
theorem caPartsOK_length (l : List String) (h : caPartsOK l = true) : l.length = 6 := by
  match l with
  | [_, _, _, _, _, _] => rfl
  | [] => exact Bool.noConfusion h
  | [_] => exact Bool.noConfusion h
  | [_, _] => exact Bool.noConfusion h
  | [_, _, _] => exact Bool.noConfusion h
  | [_, _, _, _] => exact Bool.noConfusion h
  | [_, _, _, _, _] => exact Bool.noConfusion h
  | _ :: _ :: _ :: _ :: _ :: _ :: _ :: _ => exact Bool.noConfusion h

/-- The character mapping returns its input or a hyphen. -/
theorem caNameMapChar_cases (r : Char) : caNameMapChar r = r ∨ caNameMapChar r = '-' := by
  unfold caNameMapChar
  split_ifs <;> simp

/-- The character mapping is idempotent. -/
theorem caNameMapChar_idem (r : Char) :
    caNameMapChar (caNameMapChar r) = caNameMapChar r := by
  rcases caNameMapChar_cases r with h | h
  · rw [h]; exact h
  · rw [h]; decide

/-! ## Claim theorems -/

/-- Claim C7: normalizeCertificateAuthorityName maps every character
outside [A-Za-z0-9_-] to a hyphen, leaves every character inside the set
unchanged, and is idempotent. -/
theorem normalizeCertificateAuthorityName_charmap_and_idem :
    (∀ r : Char,
      (('A' ≤ r ∧ r ≤ 'Z') ∨ ('a' ≤ r ∧ r ≤ 'z') ∨ ('0' ≤ r ∧ r ≤ '9') ∨
        r = '_' ∨ r = '-') →
      caNameMapChar r = r) ∧
    (∀ r : Char,
      ¬(('A' ≤ r ∧ r ≤ 'Z') ∨ ('a' ≤ r ∧ r ≤ 'z') ∨ ('0' ≤ r ∧ r ≤ '9') ∨
        r = '_' ∨ r = '-') →
      caNameMapChar r = '-') ∧
    (∀ s : String,
      normalizeCertificateAuthorityName (normalizeCertificateAuthorityName s) =
        normalizeCertificateAuthorityName s) := by
  refine ⟨?_, ?_, ?_⟩
  · intro r h
    unfold caNameMapChar
    split_ifs with h1 h2 h3 h4 h5
    any_goals rfl
    exfalso
    rcases h with h | h | h | h | h
    · exact h2 h
    · exact h1 h
    · exact h3 h
    · exact h5 h
    · exact h4 h
  · intro r h
    unfold caNameMapChar
    split_ifs with h1 h2 h3 h4 h5
    · exact absurd (Or.inr (Or.inl h1)) h
    · exact absurd (Or.inl h2) h
    · exact absurd (Or.inr (Or.inr (Or.inl h3))) h
    · exact absurd (Or.inr (Or.inr (Or.inr (Or.inr h4)))) h
    · exact absurd (Or.inr (Or.inr (Or.inr (Or.inl h5)))) h
    · rfl
  · intro s
    unfold normalizeCertificateAuthorityName stringsMap
    congr 1
    simp only [String.data]
    rw [List.map_map]
    exact List.map_congr_left fun a _ => caNameMapChar_idem a

/-- Witness for C7 at concrete characters and a concrete string. -/
theorem normalizeCertificateAuthorityName_charmap_and_idem_witness :
    caNameMapChar 'a' = 'a' ∧ caNameMapChar '/' = '-' ∧
      normalizeCertificateAuthorityName (normalizeCertificateAuthorityName "a b:c") =
        normalizeCertificateAuthorityName "a b:c" :=
  ⟨normalizeCertificateAuthorityName_charmap_and_idem.1 'a' (by decide),
   normalizeCertificateAuthorityName_charmap_and_idem.2.1 '/' (by decide),
   normalizeCertificateAuthorityName_charmap_and_idem.2.2 "a b:c"⟩

/-- Claim C2: the revocation reason mapping is defined for exactly the
codes 0 to 6, 9 and 10; on an unmapped code RevokeCertificate fails with
the invalid-reason error and issues no remote call. -/
theorem revocationCodeMap_domain_and_revoke_guard :
    (∀ code : Int,
      (revocationCodeMap code).isSome = true ↔
        (code = 0 ∨ code = 1 ∨ code = 2 ∨ code = 3 ∨ code = 4 ∨
         code = 5 ∨ code = 6 ∨ code = 9 ∨ code = 10)) ∧
    (∀ (c : CloudCAS) (client : Client) (req : RevokeCertificateRequest),
      revocationCodeMap req.reasonCode = none →
      (c.RevokeCertificate client req).1 = .err (errInvalidReason req.reasonCode) ∧
      (c.RevokeCertificate client req).2 = []) := by
  constructor
  · intro code
    unfold revocationCodeMap
    split_ifs <;> simp_all
  · intro c client req h
    constructor <;> simp [CloudCAS.RevokeCertificate, h]

/-- Witness for C2 at reason code 7. -/
theorem revocationCodeMap_domain_and_revoke_guard_witness :
    (CloudCAS.RevokeCertificate sampleCAS stubErrClient
        { certificate := some issuedCert, reasonCode := 7, requestID := "r" }).1 =
      .err (errInvalidReason 7) ∧
    (CloudCAS.RevokeCertificate sampleCAS stubErrClient
        { certificate := some issuedCert, reasonCode := 7, requestID := "r" }).2 = [] :=
  revocationCodeMap_domain_and_revoke_guard.2 sampleCAS stubErrClient
    { certificate := some issuedCert, reasonCode := 7, requestID := "r" } (by decide)

/-- Claim C1: when the remote client answers a create (or renew) call
with a leaf certificate and a PEM chain, the response separates the
parsed leaf as the certificate and returns the parsed chain with its
final element (the certificate of the issuing authority) excluded. -/
theorem createCertificate_separates_leaf_and_trims_chain :
    ∀ (c : CloudCAS) (client : Client) (freshID requestID : String) (tpl leaf : Cert)
      (lifetime : Int) (chain : List Cert),
      lifetime ≠ 0 → chain ≠ [] →
      (∀ r, client.createCertificate r =
        .ok { pemCertificate := PemString.valid leaf
              pemCertificateChain := chain.map PemString.valid }) →
      (CloudCAS.CreateCertificate c client freshID
          { template := some tpl, lifetime := lifetime, requestID := requestID }).1 =
        .ok { certificate := leaf, certificateChain := chain.dropLast } ∧
      (CloudCAS.RenewCertificate c client freshID
          { template := some tpl, lifetime := lifetime, requestID := requestID }).1 =
        .ok { certificate := leaf, certificateChain := chain.dropLast } := by
  intro c client fid rid tpl leaf lt chain hlt hch hcl
  have hcc : c.createCertificate client fid tpl lt rid =
      (.ok (leaf, chain.dropLast),
       [RemoteCall.createCertificate (buildCreateCertReq c fid tpl lt rid)]) := by
    unfold CloudCAS.createCertificate
    simp only [hcl, getCertificateAndChain_valid leaf chain hch]
  constructor <;>
    simp [CloudCAS.CreateCertificate, CloudCAS.RenewCertificate, hlt, hcc]

/-- Witness for C1: a stub chain [intermediate, authority certificate]
yields the response chain [intermediate]. -/
theorem createCertificate_separates_leaf_and_trims_chain_witness :
    (CloudCAS.CreateCertificate sampleCAS createStubClient "fresh"
        { template := some plainTemplate, lifetime := 1, requestID := "r" }).1 =
      .ok { certificate := leafCert, certificateChain := [interCert] } :=
  (createCertificate_separates_leaf_and_trims_chain sampleCAS createStubClient "fresh" "r"
      plainTemplate leafCert 1 [interCert, authCert]
      (by decide) (by decide) (fun _ => rfl)).1

/-- Claim C5: with the same template, lifetime, request identifier,
fresh identifier and client, RenewCertificate issues exactly the calls
CreateCertificate issues and produces the same certificate and chain;
renewal is re-issuance. -/
theorem renewCertificate_is_reissuance :
    ∀ (c : CloudCAS) (client : Client) (freshID : String) (tpl : Option Cert)
      (lifetime : Int) (requestID : String),
      (CloudCAS.CreateCertificate c client freshID
          { template := tpl, lifetime := lifetime, requestID := requestID }).2 =
        (CloudCAS.RenewCertificate c client freshID
          { template := tpl, lifetime := lifetime, requestID := requestID }).2 ∧
      sameOutcome
        (CloudCAS.CreateCertificate c client freshID
          { template := tpl, lifetime := lifetime, requestID := requestID }).1
        (CloudCAS.RenewCertificate c client freshID
          { template := tpl, lifetime := lifetime, requestID := requestID }).1 := by
  intro c client fid tpl lt rid
  cases tpl with
  | none => exact ⟨rfl, trivial⟩
  | some t =>
    by_cases h : lt = 0
    · subst h
      exact ⟨rfl, trivial⟩
    · simp only [CloudCAS.CreateCertificate, CloudCAS.RenewCertificate]
      rcases hcc : c.createCertificate client fid t lt rid with ⟨res, tr⟩
      cases res <;> simp [h, hcc, sameOutcome]

/-- Claim C4: a nil template or a zero lifetime makes CreateCertificate,
RenewCertificate and CreateCertificateAuthority fail with an error
before any remote call is issued. -/
theorem create_renew_createCA_reject_invalid_before_network :
    ∀ (c : CloudCAS) (client : Client) (freshID1 freshID2 : String),
      (∀ req : CreateCertificateRequest,
        req.template = none ∨ req.lifetime = 0 →
        (CloudCAS.CreateCertificate c client freshID1 req).1.isErr = true ∧
        (CloudCAS.CreateCertificate c client freshID1 req).2 = []) ∧
      (∀ req : RenewCertificateRequest,
        req.template = none ∨ req.lifetime = 0 →
        (CloudCAS.RenewCertificate c client freshID1 req).1.isErr = true ∧
        (CloudCAS.RenewCertificate c client freshID1 req).2 = []) ∧
      (∀ req : CreateCertificateAuthorityRequest,
        req.template = none ∨ req.lifetime = 0 →
        (CloudCAS.CreateCertificateAuthority c client freshID1 freshID2 req).1.isErr = true ∧
        (CloudCAS.CreateCertificateAuthority c client freshID1 freshID2 req).2 = []) := by
  intro c client fid1 fid2
  refine ⟨fun req h => ?_, fun req h => ?_, fun req h => ?_⟩
  · rcases req with ⟨tpl, lt, rid⟩
    dsimp only at h
    rcases h with h | h
    · subst h
      constructor <;> simp [CloudCAS.CreateCertificate, GoResult.isErr]
    · subst h
      cases tpl <;> (constructor <;> simp [CloudCAS.CreateCertificate, GoResult.isErr])
  · rcases req with ⟨tpl, lt, rid⟩
    dsimp only at h
    rcases h with h | h
    · subst h
      constructor <;> simp [CloudCAS.RenewCertificate, GoResult.isErr]
    · subst h
      cases tpl <;> (constructor <;> simp [CloudCAS.RenewCertificate, GoResult.isErr])
  · rcases req with ⟨ty, tpl, lt, par, ck, nm, rid⟩
    dsimp only at h
    by_cases h1 : c.project = ""
    · constructor
      · simp only [CloudCAS.CreateCertificateAuthority, if_pos h1]; rfl
      · simp only [CloudCAS.CreateCertificateAuthority, if_pos h1]
    · by_cases h2 : c.location = ""
      · constructor
        · simp only [CloudCAS.CreateCertificateAuthority, if_neg h1, if_pos h2]; rfl
        · simp only [CloudCAS.CreateCertificateAuthority, if_neg h1, if_pos h2]
      · rcases h with h | h
        · subst h
          constructor
          · simp only [CloudCAS.CreateCertificateAuthority, if_neg h1, if_neg h2]; rfl
          · simp only [CloudCAS.CreateCertificateAuthority, if_neg h1, if_neg h2]
        · subst h
          cases tpl with
          | none =>
            constructor
            · simp only [CloudCAS.CreateCertificateAuthority, if_neg h1, if_neg h2]; rfl
            · simp only [CloudCAS.CreateCertificateAuthority, if_neg h1, if_neg h2]
          | some t =>
            constructor
            · simp only [CloudCAS.CreateCertificateAuthority, if_neg h1, if_neg h2]; rfl
            · simp only [CloudCAS.CreateCertificateAuthority, if_neg h1, if_neg h2]; rfl

/-- Witness for C4: a nil template and a zero lifetime on the three
entry points, against the always-failing stub client. -/
theorem create_renew_createCA_reject_invalid_before_network_witness :
    ((CloudCAS.CreateCertificate sampleCAS stubErrClient "f1"
        { template := none, lifetime := 1, requestID := "r" }).1.isErr = true ∧
      (CloudCAS.CreateCertificate sampleCAS stubErrClient "f1"
        { template := none, lifetime := 1, requestID := "r" }).2 = []) ∧
    ((CloudCAS.RenewCertificate sampleCAS stubErrClient "f1"
        { template := some plainTemplate, lifetime := 0, requestID := "r" }).1.isErr = true ∧
      (CloudCAS.RenewCertificate sampleCAS stubErrClient "f1"
        { template := some plainTemplate, lifetime := 0, requestID := "r" }).2 = []) ∧
    ((CloudCAS.CreateCertificateAuthority sampleCAS stubErrClient "f1" "f2"
        { caType := rootCA, template := none, lifetime := 1, parent := none,
          createKey := none, name := "n", requestID := "r" }).1.isErr = true ∧
      (CloudCAS.CreateCertificateAuthority sampleCAS stubErrClient "f1" "f2"
        { caType := rootCA, template := none, lifetime := 1, parent := none,
          createKey := none, name := "n", requestID := "r" }).2 = []) :=
  ⟨(create_renew_createCA_reject_invalid_before_network sampleCAS stubErrClient "f1" "f2").1
      { template := none, lifetime := 1, requestID := "r" } (Or.inl rfl),
   (create_renew_createCA_reject_invalid_before_network sampleCAS stubErrClient "f1" "f2").2.1
      { template := some plainTemplate, lifetime := 0, requestID := "r" } (Or.inr rfl),
   (create_renew_createCA_reject_invalid_before_network sampleCAS stubErrClient "f1" "f2").2.2
      { caType := rootCA, template := none, lifetime := 1, parent := none,
        createKey := none, name := "n", requestID := "r" } (Or.inl rfl)⟩

/-- Claim C3: GetCertificateAuthority falls back to the configured
authority when the request has no name, fails when the remote call fails
or the returned chain is empty, and otherwise returns the parsed last
chain element as the root, ignoring every earlier element. -/
theorem getCertificateAuthority_root_resolution :
    (∀ (c : CloudCAS) (client : Client),
      (CloudCAS.GetCertificateAuthority c client { name := "" }).2 =
        [RemoteCall.getCertificateAuthority { name := c.certificateAuthority }]) ∧
    (∀ (c : CloudCAS) (client : Client) (nm e : String),
      client.getCertificateAuthority { name := resolveCAName c nm } = .error e →
      (CloudCAS.GetCertificateAuthority c client { name := nm }).1 =
        .err (goWrap "cloudCAS GetCertificateAuthority failed" e)) ∧
    (∀ (c : CloudCAS) (client : Client) (nm : String) (resp : PbCertificateAuthority),
      client.getCertificateAuthority { name := resolveCAName c nm } = .ok resp →
      resp.pemCaCertificates = [] →
      (CloudCAS.GetCertificateAuthority c client { name := nm }).1 = .err errGetCAEmpty) ∧
    (∀ (c : CloudCAS) (client : Client) (nm : String) (resp : PbCertificateAuthority)
        (earlier : List PemString) (root : Cert),
      client.getCertificateAuthority { name := resolveCAName c nm } = .ok resp →
      resp.pemCaCertificates = earlier ++ [PemString.valid root] →
      (CloudCAS.GetCertificateAuthority c client { name := nm }).1 =
        .ok { rootCertificate := root }) := by
  refine ⟨?_, ?_, ?_, ?_⟩
  · intro c client
    unfold CloudCAS.GetCertificateAuthority
    have hres : resolveCAName c "" = c.certificateAuthority := by simp [resolveCAName]
    simp only [hres]
    rcases hr : client.getCertificateAuthority { name := c.certificateAuthority } with e | resp
    · simp [hr]
    · rcases hl : resp.pemCaCertificates.getLast? with _ | p
      · simp [hr, hl]
      · rcases hp : parseCertificate p with cert | e2 | e2 <;> simp [hr, hl, hp]
  · intro c client nm e h
    unfold CloudCAS.GetCertificateAuthority
    simp [h]
  · intro c client nm resp h he
    unfold CloudCAS.GetCertificateAuthority
    simp [h, he]
  · intro c client nm resp earlier root h he
    unfold CloudCAS.GetCertificateAuthority
    simp [h, he, List.getLast?_concat, parseCertificate]

/-- Witness for C3 against concrete stub clients: fallback name in the
trace, remote failure, empty chain, and the root taken from the tail of
[intermediate, root]. -/
theorem getCertificateAuthority_root_resolution_witness :
    (CloudCAS.GetCertificateAuthority sampleCAS getStubClient { name := "" }).2 =
      [RemoteCall.getCertificateAuthority
        { name := "projects/p1/locations/l1/certificateAuthorities/c1" }] ∧
    (CloudCAS.GetCertificateAuthority sampleCAS stubErrClient { name := "" }).1 =
      .err (goWrap "cloudCAS GetCertificateAuthority failed" "unavailable") ∧
    (CloudCAS.GetCertificateAuthority sampleCAS emptyCAClient { name := "" }).1 =
      .err errGetCAEmpty ∧
    (CloudCAS.GetCertificateAuthority sampleCAS getStubClient { name := "" }).1 =
      .ok { rootCertificate := rootCert } :=
  ⟨getCertificateAuthority_root_resolution.1 sampleCAS getStubClient,
   getCertificateAuthority_root_resolution.2.1 sampleCAS stubErrClient "" "unavailable" rfl,
   getCertificateAuthority_root_resolution.2.2.1 sampleCAS emptyCAClient ""
     { name := "ca", pemCaCertificates := [] } rfl rfl,
   getCertificateAuthority_root_resolution.2.2.2 sampleCAS getStubClient ""
     interRootAuthority [PemString.valid interCert] rootCert rfl rfl⟩

/-- Claim C9: when the remote client returns a certificate with an empty
PEM chain, the chain-trimming slice bound len-1 is out of range, so the
create, renew and revoke paths panic instead of returning a graceful
error. -/
theorem empty_returned_chain_panics :
    (∀ leaf : Cert,
      getCertificateAndChain
        { pemCertificate := PemString.valid leaf, pemCertificateChain := [] } =
        .panic errSliceOutOfRange) ∧
    (∀ (c : CloudCAS) (client : Client) (freshID requestID : String) (tpl leaf : Cert)
        (lifetime : Int),
      lifetime ≠ 0 →
      (∀ r, client.createCertificate r =
        .ok { pemCertificate := PemString.valid leaf, pemCertificateChain := [] }) →
      (CloudCAS.CreateCertificate c client freshID
          { template := some tpl, lifetime := lifetime, requestID := requestID }).1 =
        .panic errSliceOutOfRange ∧
      (CloudCAS.RenewCertificate c client freshID
          { template := some tpl, lifetime := lifetime, requestID := requestID }).1 =
        .panic errSliceOutOfRange) ∧
    (∀ (c : CloudCAS) (client : Client) (req : RevokeCertificateRequest)
        (cert leaf : Cert) (ext : Extension) (reason : RevocationReason) (cae : Nat × String),
      revocationCodeMap req.reasonCode = some reason →
      req.certificate = some cert →
      findCertificateAuthorityExtension cert = some ext →
      decodeCertificateAuthorityExtension ext.value = some cae →
      (∀ r, client.revokeCertificate r =
        .ok { pemCertificate := PemString.valid leaf, pemCertificateChain := [] }) →
      (CloudCAS.RevokeCertificate c client req).1 = .panic errSliceOutOfRange) := by
  refine ⟨getCertificateAndChain_empty, ?_, ?_⟩
  · intro c client fid rid tpl leaf lt hlt hcl
    have hcc : c.createCertificate client fid tpl lt rid =
        (.panic errSliceOutOfRange,
         [RemoteCall.createCertificate (buildCreateCertReq c fid tpl lt rid)]) := by
      unfold CloudCAS.createCertificate
      simp only [hcl, getCertificateAndChain_empty]
    constructor <;>
      simp [CloudCAS.CreateCertificate, CloudCAS.RenewCertificate, hlt, hcc]
  · intro c client req cert leaf ext reason cae hmap hcert hfind hdec hcl
    simp [CloudCAS.RevokeCertificate, hmap, hcert, hfind, hdec, hcl,
      getCertificateAndChain_empty]

/-- Witness for C9: the empty-chain stub makes getCertificateAndChain,
CreateCertificate and RevokeCertificate panic on the slice bound. -/
theorem empty_returned_chain_panics_witness :
    getCertificateAndChain leafWithEmptyChain = .panic errSliceOutOfRange ∧
    (CloudCAS.CreateCertificate sampleCAS emptyChainClient "f"
        { template := some plainTemplate, lifetime := 1, requestID := "r" }).1 =
      .panic errSliceOutOfRange ∧
    (CloudCAS.RevokeCertificate sampleCAS emptyChainClient
        { certificate := some issuedCert, reasonCode := 1, requestID := "r" }).1 =
      .panic errSliceOutOfRange :=
  ⟨empty_returned_chain_panics.1 leafCert,
   (empty_returned_chain_panics.2.1 sampleCAS emptyChainClient "f" "r" plainTemplate leafCert 1
      (by decide) (fun _ => rfl)).1,
   empty_returned_chain_panics.2.2 sampleCAS emptyChainClient
      { certificate := some issuedCert, reasonCode := 1, requestID := "r" }
      issuedCert leafCert (createCertificateAuthorityExtension cloudCASTag "abc")
      RevocationReason.keyCompromise (cloudCASTag, "abc")
      (by decide) rfl (by decide) (by decide) (fun _ => rfl)⟩

/-- Claim C10: a certificate carrying the correlation extension whose
value fails decoding makes RevokeCertificate return the decode error
before any remote call is issued. -/
theorem revoke_decode_failure_before_network :
    ∀ (c : CloudCAS) (client : Client) (req : RevokeCertificateRequest)
      (cert : Cert) (ext : Extension) (reason : RevocationReason),
      revocationCodeMap req.reasonCode = some reason →
      req.certificate = some cert →
      findCertificateAuthorityExtension cert = some ext →
      decodeCertificateAuthorityExtension ext.value = none →
      (CloudCAS.RevokeCertificate c client req).1 = .err errRevokeUnmarshal ∧
      (CloudCAS.RevokeCertificate c client req).2 = [] := by
  intro c client req cert ext reason hmap hcert hfind hdec
  constructor <;> simp [CloudCAS.RevokeCertificate, hmap, hcert, hfind, hdec]

/-- Witness for C10: an extension with an empty (undecodable) value. -/
theorem revoke_decode_failure_before_network_witness :
    (CloudCAS.RevokeCertificate sampleCAS stubErrClient
        { certificate := some malformedExtCert, reasonCode := 1, requestID := "r" }).1 =
      .err errRevokeUnmarshal ∧
    (CloudCAS.RevokeCertificate sampleCAS stubErrClient
        { certificate := some malformedExtCert, reasonCode := 1, requestID := "r" }).2 = [] :=
  revoke_decode_failure_before_network sampleCAS stubErrClient
    { certificate := some malformedExtCert, reasonCode := 1, requestID := "r" }
    malformedExtCert { oid := oidCertificateAuthority, value := [] }
    RevocationReason.keyCompromise (by decide) rfl (by decide) rfl

/-- The private createCertificate helper always issues exactly one
remote create call carrying the built request. -/
theorem createCertificate_helper_trace (c : CloudCAS) (client : Client)
    (freshID : String) (tpl : Cert) (lifetime : Int) (requestID : String) :
    (CloudCAS.createCertificate c client freshID tpl lifetime requestID).2 =
      [RemoteCall.createCertificate (buildCreateCertReq c freshID tpl lifetime requestID)] := by
  unfold CloudCAS.createCertificate
  rcases hc : client.createCertificate (buildCreateCertReq c freshID tpl lifetime requestID)
    with e | cert <;> simp [hc]

/-- Claim C6 (amended): every template submitted to the remote API by
the certificate create and renew paths carries exactly one correlation
extension — the strip-and-retag step removes any pre-existing instance
before appending the fresh one. (CreateCertificateAuthority appends
without stripping; see the counterexample.) -/
theorem create_renew_submission_single_cas_extension :
    ∀ (c : CloudCAS) (client : Client) (freshID : String),
      (∀ (req : CreateCertificateRequest) (call : RemoteCall) (t : Cert),
        call ∈ (CloudCAS.CreateCertificate c client freshID req).2 →
        RemoteCall.templateOf call = some t → casExtCount t = 1) ∧
      (∀ (req : RenewCertificateRequest) (call : RemoteCall) (t : Cert),
        call ∈ (CloudCAS.RenewCertificate c client freshID req).2 →
        RemoteCall.templateOf call = some t → casExtCount t = 1) := by
  intro c client fid
  constructor
  · intro req call t hmem hto
    rcases req with ⟨tpl, lt, rid⟩
    cases tpl with
    | none => simp [CloudCAS.CreateCertificate] at hmem
    | some tp =>
      by_cases h : lt = 0
      · subst h; simp [CloudCAS.CreateCertificate] at hmem
      · have htr : (CloudCAS.CreateCertificate c client fid
            { template := some tp, lifetime := lt, requestID := rid }).2 =
            [RemoteCall.createCertificate (buildCreateCertReq c fid tp lt rid)] := by
          have h2 := createCertificate_helper_trace c client fid tp lt rid
          simp only [CloudCAS.CreateCertificate, if_neg h]
          rcases hcc : c.createCertificate client fid tp lt rid with ⟨res, tr⟩
          rw [hcc] at h2
          cases res <;> simpa using h2
        rw [htr] at hmem
        rcases List.mem_singleton.mp hmem with rfl
        simp only [RemoteCall.templateOf, buildCreateCertReq, createCertificateConfig,
          Option.some.injEq] at hto
        rw [← hto]
        exact casExtCount_tagTemplate tp fid
  · intro req call t hmem hto
    rcases req with ⟨tpl, lt, rid⟩
    cases tpl with
    | none => simp [CloudCAS.RenewCertificate] at hmem
    | some tp =>
      by_cases h : lt = 0
      · subst h; simp [CloudCAS.RenewCertificate] at hmem
      · have htr : (CloudCAS.RenewCertificate c client fid
            { template := some tp, lifetime := lt, requestID := rid }).2 =
            [RemoteCall.createCertificate (buildCreateCertReq c fid tp lt rid)] := by
          have h2 := createCertificate_helper_trace c client fid tp lt rid
          simp only [CloudCAS.RenewCertificate, if_neg h]
          rcases hcc : c.createCertificate client fid tp lt rid with ⟨res, tr⟩
          rw [hcc] at h2
          cases res <;> simpa using h2
        rw [htr] at hmem
        rcases List.mem_singleton.mp hmem with rfl
        simp only [RemoteCall.templateOf, buildCreateCertReq, createCertificateConfig,
          Option.some.injEq] at hto
        rw [← hto]
        exact casExtCount_tagTemplate tp fid

/-- Witness for the amended C6: re-issuing from a template that already
carries a correlation extension submits exactly one. -/
theorem create_renew_submission_single_cas_extension_witness :
    casExtCount (tagTemplate staleTemplate "fresh") = 1 :=
  (create_renew_submission_single_cas_extension sampleCAS stubErrClient "fresh").1
    { template := some staleTemplate, lifetime := 1, requestID := "r" }
    (RemoteCall.createCertificate (buildCreateCertReq sampleCAS "fresh" staleTemplate 1 "r"))
    (tagTemplate staleTemplate "fresh")
    (by decide) rfl

/-- Counterexample for C6 as stated: CreateCertificateAuthority appends
a fresh correlation extension without stripping, so a template that
already carries one reaches the remote API carrying two. -/
theorem createCertificateAuthority_duplicates_extension_counterexample :
    (callTemplates
        (CloudCAS.CreateCertificateAuthority sampleCAS stubErrClient "f1" "f2"
          staleCCARequest).2).map casExtCount = [2] := by
  decide

/-- Claim C8: with is-creator false, construction fails unless the
certificate authority resource identifier is present and matches
projects/p/locations/l/certificateAuthorities/c; when it matches and
project or location are omitted, they are derived from the identifier
components. -/
theorem new_requires_and_derives_resource_name :
    (∀ (clientErr : Option String) (opts : Options),
      opts.isCreator = false → opts.certificateAuthority = "" →
      New clientErr opts = .err "cloudCAS certificateAuthority cannot be empty") ∧
    (∀ (clientErr : Option String) (opts : Options),
      opts.isCreator = false → caRegexpMatch opts.certificateAuthority = false →
      (New clientErr opts).isErr = true) ∧
    (∀ opts : Options,
      opts.isCreator = false → caRegexpMatch opts.certificateAuthority = true →
      New none opts = .ok
        { certificateAuthority := opts.certificateAuthority
          project :=
            if opts.project = "" then
              (stringsSplitChar (Char.ofNat 47) opts.certificateAuthority).getD 1 ""
            else opts.project
          location :=
            if opts.location = "" then
              (stringsSplitChar (Char.ofNat 47) opts.certificateAuthority).getD 3 ""
            else opts.location }) := by
  refine ⟨?_, ?_, ?_⟩
  · intro clientErr opts hc hca
    unfold New
    simp [hc, hca]
  · intro clientErr opts hc hm
    unfold New
    by_cases hca : opts.certificateAuthority = ""
    · simp [hc, hca, GoResult.isErr]
    · simp [hc, hca, hm, GoResult.isErr]
  · intro opts hc hm
    have hlen : (stringsSplitChar (Char.ofNat 47) opts.certificateAuthority).length = 6 :=
      caPartsOK_length _ hm
    have hne : opts.certificateAuthority ≠ "" := by
      intro he
      rw [he] at hm
      exact Bool.noConfusion hm
    unfold New
    simp [hc, hne, hm, hlen]

/-- Witness for C8: missing identifier, malformed identifier, and
derivation of project p1 and location l1 from a matching identifier. -/
theorem new_requires_and_derives_resource_name_witness :
    New none { certificateAuthority := "", project := "", location := "",
               isCreator := false, credentialsFile := "" } =
      .err "cloudCAS certificateAuthority cannot be empty" ∧
    (New none { certificateAuthority := "not-a-resource", project := "", location := "",
                isCreator := false, credentialsFile := "" }).isErr = true ∧
    New none { certificateAuthority := "projects/p1/locations/l1/certificateAuthorities/c1",
               project := "", location := "", isCreator := false, credentialsFile := "" } =
      .ok sampleCAS :=
  ⟨new_requires_and_derives_resource_name.1 none
      { certificateAuthority := "", project := "", location := "",
        isCreator := false, credentialsFile := "" } rfl rfl,
   new_requires_and_derives_resource_name.2.1 none
      { certificateAuthority := "not-a-resource", project := "", location := "",
        isCreator := false, credentialsFile := "" } rfl (by decide),
   new_requires_and_derives_resource_name.2.2
      { certificateAuthority := "projects/p1/locations/l1/certificateAuthorities/c1",
        project := "", location := "", isCreator := false, credentialsFile := "" }
      rfl (by decide)⟩
